import Mathlib

/-!
Shallow embedding of the AMQP log driver in `daemon/logger/amqp/amqp.go`
(the current revision of the file: the `amqpLogger` with an `amqpConnection`
holding a broker cursor, reached through `connect`, `reconnect`, `Log` and
`Close`).

Network and library effects (dialing, channel opening, topology declaration,
publishing, certificate loading, JSON marshalling) are abstracted by an
environment `Env` of outcome oracles, and every such interaction is recorded
in an event trace, so that theorems can count the operations a call performs.
Go's three ways out of a function are modelled by `GoResult`: a normal
`ok` value, an `err` (a non-nil `error` return), and a runtime `panic`
(nil-pointer dereference or index out of range).
-/

/-- A parsed broker URL (`net/url.URL`), reduced to the fields the driver
reads: the scheme and the remainder of the address. -/
structure URL where
  scheme : String
  rest : String
deriving DecidableEq, Repr

/-- The `amqpBroker` record: per-broker connection settings. -/
structure AmqpBroker where
  BrokerURL : URL
  Exchange : String
  Queue : String
  RoutingKey : String
  Tag : String
  CertPath : String
  KeyPath : String
  Confirm : Bool
deriving DecidableEq, Repr

/-- The `amqpFields` record: static host/container metadata captured at
driver construction. Times are modelled as naturals. -/
structure AmqpFields where
  Hostname : String
  ContainerID : String
  ContainerName : String
  ImageID : String
  ImageName : String
  Command : String
  Tag : String
  Created : Nat
deriving DecidableEq, Repr

/-- The `amqpMessage` wire envelope built by `Log`. -/
structure AmqpMessage where
  Message : String
  Version : String
  Timestamp : Nat
  Tags : AmqpFields
  Host : String
  Path : String
deriving DecidableEq, Repr

/-- The `amqpConnection` record. The `*amqp.Connection` and `*amqp.Channel`
handles are modelled by their observable closed/open state (`connClosed`,
`chanClosed`); both handles are assigned by every successful `connect`, so
they are always present. `conf` models the `<-chan amqp.Confirmation` field:
`none` is Go's nil channel. `err` models the stored `error` field. -/
structure AmqpConnection where
  broker : Nat
  brokerURLs : List AmqpBroker
  connClosed : Bool
  chanClosed : Bool
  conf : Option Unit
  err : Option String
deriving DecidableEq, Repr

/-- The `logger.Context` as the driver reads it: a flat string-keyed
configuration map (`ctx.Config`). -/
structure Ctx where
  config : String → String

/-- Package-level state referenced by `connect` and `reconnect` but declared
outside the file under verification. Modelled from the spec: `currentBroker`
is the BrokerEndpoint whose exchange/queue/routing-key names `connect`
declares, and `brokerURLs` is the ordered BrokerList of endpoints whose
length drives the round-robin cursor. -/
structure Globals where
  currentBroker : AmqpBroker
  brokerURLs : List AmqpBroker

/-- Outcome oracles for every effectful library call the driver makes.
Each field fixes the result the environment would give that interaction. -/
structure Env where
  now : Nat
  marshalOk : Bool
  loadCert : String → String → Bool
  dialOk : URL → Bool
  dialTLSOk : URL → Bool
  channelOk : Bool
  exchangeDeclareOk : Bool
  queueDeclareOk : Bool
  bindOk : Bool
  publishOk : Bool

/-- Go function outcome: normal return, non-nil error, or runtime panic. -/
inductive GoResult (α : Type) where
  | ok (a : α)
  | err (e : String)
  | panic (msg : String)
deriving DecidableEq, Repr

/-- One observable operation performed during a call. `publish` records the
names it was addressed to, the envelope, whether the channel was already
closed, and whether the broker accepted it; `confirmWait` records the
confirmation-channel value the deferred wait received (Go nil = `none`). -/
inductive Ev where
  | reconnectStart
  | closeChan
  | closeConn
  | dial (u : URL)
  | dialTLS (u : URL) (clientCert : Bool)
  | channelOpen
  | exchangeDeclare (e : String)
  | queueDeclare (q : String)
  | queueBind (q rk e : String)
  | publish (exchange rk : String) (body : AmqpMessage) (chanClosed ok : Bool)
  | confirmWait (conf : Option Unit)
deriving DecidableEq, Repr

/-- The `amqpLogger` driver state. -/
structure AmqpLogger where
  ctx : Ctx
  fields : AmqpFields
  connection : Option AmqpConnection

/-- Model of `bytes.TrimSpace`: strip leading and trailing whitespace. -/
def trimSpace (s : String) : String :=
  ⟨((s.data.dropWhile Char.isWhitespace).reverse.dropWhile Char.isWhitespace).reverse⟩

/-- Split a character list at every comma. -/
def splitOnComma : List Char → List (List Char)
  | [] => [[]]
  | c :: cs =>
    let r := splitOnComma cs
    if c = ',' then [] :: r
    else
      match r with
      | [] => [[c]]
      | g :: gs => (c :: g) :: gs

/-- Split a character list at the first occurrence of "://", if any. -/
def splitScheme : List Char → Option (List Char × List Char)
  | [] => none
  | ':' :: '/' :: '/' :: r => some ([], r)
  | c :: cs =>
    match splitScheme cs with
    | some (sch, r) => some (c :: sch, r)
    | none => none

/-- Modelled from the spec: `parseURL` (declared outside the file under
verification) splits the comma-separated `amqp-url` option into the ordered
list of broker URLs, each parsed into scheme and address. -/
def parseURL (s : String) : List URL :=
  (splitOnComma s.data).map fun u =>
    match splitScheme u with
    | some (sch, r) => { scheme := ⟨sch⟩, rest := ⟨r⟩ }
    | none => { scheme := "", rest := ⟨u⟩ }

/-- Continuation of `connect` after a successful dial: open the channel, declare the
exchange, declare the queue, bind it (all against the package-level
`currentBroker` names), then build the `amqpConnection`. `conf` is declared
in `connect` but never assigned, so the built record carries the nil channel
(`none`); the named return `err` is nil on this path. -/
def connectTail (env : Env) (g : Globals) (broker : Nat) (ops : List Ev) :
    GoResult AmqpConnection × List Ev :=
  let ops := ops ++ [Ev.channelOpen]
  if ¬ env.channelOk then (.err "Could not open channel", ops)
  else
    let ops := ops ++ [Ev.exchangeDeclare g.currentBroker.Exchange]
    if ¬ env.exchangeDeclareOk then (.err "Could not create exchange", ops)
    else
      let ops := ops ++ [Ev.queueDeclare g.currentBroker.Queue]
      if ¬ env.queueDeclareOk then (.err "Could not create queue", ops)
      else
        let ops := ops ++
          [Ev.queueBind g.currentBroker.Queue g.currentBroker.RoutingKey
            g.currentBroker.Exchange]
        if ¬ env.bindOk then (.err "Could not bind queue to exchange", ops)
        else
          (.ok { broker := broker, brokerURLs := g.brokerURLs,
                 connClosed := false, chanClosed := false,
                 conf := none, err := none }, ops)

/-- Model of `connect(ctx, broker)`. The scheme test reads `connectURLs[0]`; the TLS
branch loads the client certificate pair (a load failure merely leaves
`cfg.Certificates` empty) and dials `connectURLs[broker]`, while the plain
branch dials `connectURLs[0]` — the index written in the source, not the
`broker` argument. Out-of-range indexing is a Go panic. -/
def connect (env : Env) (ctx : Ctx) (broker : Nat) (g : Globals) :
    GoResult AmqpConnection × List Ev :=
  let connectURLs := parseURL (ctx.config "amqp-url")
  match connectURLs.get? 0 with
  | none => (.panic "index out of range", [])
  | some u0 =>
    if u0.scheme = "amqps" then
      let clientCert := env.loadCert (ctx.config "amqp-cert") (ctx.config "amqp-key")
      match connectURLs.get? broker with
      | none => (.panic "index out of range", [])
      | some ub =>
        let ops := [Ev.dialTLS ub clientCert]
        if ¬ env.dialTLSOk ub then (.err "Could not connect to AMQP server", ops)
        else connectTail env g broker ops
    else
      let ops := [Ev.dial u0]
      if ¬ env.dialOk u0 then (.err "Could not connect to AMQP server", ops)
      else connectTail env g broker ops

/-- Model of `Close()`: if a connection is held, close its channel then its
transport; the library's close errors are discarded and `Close` always
returns nil. The `connection` field itself is not cleared. -/
def AmqpLogger.Close (s : AmqpLogger) : GoResult Unit × AmqpLogger × List Ev :=
  match s.connection with
  | none => (.ok (), s, [])
  | some conn =>
      (.ok (),
       { s with connection := some { conn with chanClosed := true, connClosed := true } },
       [Ev.closeChan, Ev.closeConn])

/-- The cursor advance written inside `reconnect`: move to the next broker
in the list, wrapping to 0 when at the end. -/
def nextBroker (conn : AmqpConnection) : Nat :=
  if conn.brokerURLs.length > conn.broker + 1 then conn.broker + 1 else 0

/-- Model of `reconnect(s)`: log the attempt, close the current connection, advance
the broker cursor (wrap to 0 at the end of the list), and `connect` to the
cursor's broker. On connect failure the driver keeps the old (now closed)
connection record with the advanced cursor. Reading `s.connection.broker`
with a nil connection is a Go nil-pointer panic. -/
def reconnect (env : Env) (g : Globals) (s : AmqpLogger) :
    GoResult Unit × AmqpLogger × List Ev :=
  let startOps := [Ev.reconnectStart]
  let closed := s.Close
  let s1 := closed.2.1
  let ops := startOps ++ closed.2.2
  match s1.connection with
  | none => (.panic "invalid memory address or nil pointer dereference", s1, ops)
  | some conn =>
    let nextB := nextBroker conn
    let conn1 := { conn with broker := nextB }
    let s2 := { s1 with connection := some conn1 }
    match connect env s2.ctx nextB g with
    | (.ok newConn, cops) => (.ok (), { s2 with connection := some newConn }, ops ++ cops)
    | (.err e, cops) => (.err e, s2, ops ++ cops)
    | (.panic m, cops) => (.panic m, s2, ops ++ cops)

/-- The body of `Log` from the `if string(short) != ""` test on: build the
envelope, marshal it, register the deferred confirmation wait when the
`amqp-confirm` option is "true" (capturing the connection's confirmation
channel at registration, per Go defer-argument evaluation), publish on the
current connection's channel — a publish on a closed channel fails — and on
publish failure run one `reconnect`, whose error (if any) is returned.
Deferred events run on every exit path after registration. -/
def logPublish (env : Env) (g : Globals) (s : AmqpLogger) (short : String)
    (ops : List Ev) : GoResult Unit × AmqpLogger × List Ev :=
  if short = "" then (.ok (), s, ops)
  else
    let m : AmqpMessage :=
      { Version := "1", Host := s.fields.Hostname, Message := short,
        Timestamp := env.now, Path := s.fields.ContainerID, Tags := s.fields }
    if ¬ env.marshalOk then (.err "Could not serialise event", s, ops)
    else
      let deferred :=
        if s.ctx.config "amqp-confirm" = "true" then
          match s.connection with
          | some conn => [Ev.confirmWait conn.conf]
          | none => []
        else []
      match s.connection with
      | none => (.panic "invalid memory address or nil pointer dereference",
                 s, ops ++ deferred)
      | some conn =>
        let pubOk := !conn.chanClosed && env.publishOk
        let ops := ops ++
          [Ev.publish (s.ctx.config "amqp-exchange") (s.ctx.config "amqp-routingkey")
            m conn.chanClosed pubOk]
        if pubOk then (.ok (), s, ops ++ deferred)
        else
          match reconnect env g s with
          | (.ok _, s1, rops) => (.ok (), s1, ops ++ rops ++ deferred)
          | (.err e, s1, rops) => (.err e, s1, ops ++ rops ++ deferred)
          | (.panic msg, s1, rops) => (.panic msg, s1, ops ++ rops ++ deferred)

/-- Model of `Log(msg)`: trim the line; if no connection is held, `reconnect` first
and propagate its error; then run the publish body (a no-op returning nil
when the trimmed line is empty). -/
def AmqpLogger.Log (env : Env) (g : Globals) (s : AmqpLogger) (line : String) :
    GoResult Unit × AmqpLogger × List Ev :=
  let short := trimSpace line
  match s.connection with
  | none =>
    match reconnect env g s with
    | (.ok _, s1, ops) => logPublish env g s1 short ops
    | (.err e, s1, ops) => (.err e, s1, ops)
    | (.panic m, s1, ops) => (.panic m, s1, ops)
  | some _ => logPublish env g s short []

/-- Discriminator: is this event a publish attempt? -/
def Ev.isPublish : Ev → Bool
  | .publish .. => true
  | _ => false

/-- Discriminator: is this event a successful publish? -/
def Ev.isPublishOk : Ev → Bool
  | .publish _ _ _ _ ok => ok
  | _ => false

/-- Discriminator: is this event the start of a reconnect cycle? -/
def Ev.isReconnectStart : Ev → Bool
  | .reconnectStart => true
  | _ => false

/-- Number of publish attempts in a trace. -/
def pubCount (t : List Ev) : Nat := t.countP (fun e => Ev.isPublish e)

/-- Number of successful publishes in a trace. -/
def pubOkCount (t : List Ev) : Nat := t.countP (fun e => Ev.isPublishOk e)

/-- Number of reconnect cycles started in a trace. -/
def recCount (t : List Ev) : Nat := t.countP (fun e => Ev.isReconnectStart e)

/-- An event that is neither a publish attempt nor a reconnect start. -/
def evBenign (e : Ev) : Bool := !(Ev.isPublish e) && !(Ev.isReconnectStart e)

def demoConfig : String → String := fun k =>
  if k = "amqp-url" then "amqp://h0,amqp://h1"
  else if k = "amqp-exchange" then "logs"
  else if k = "amqp-routingkey" then "rk"
  else if k = "amqp-confirm" then "true"
  else ""

def demoCtx : Ctx := ⟨demoConfig⟩

def demoBroker0 : AmqpBroker := ⟨⟨"amqp", "h0"⟩, "logs", "q", "rk", "", "", "", false⟩

def demoBroker1 : AmqpBroker := ⟨⟨"amqp", "h1"⟩, "logs", "q", "rk", "", "", "", false⟩

def demoGlobals : Globals := ⟨demoBroker0, [demoBroker0, demoBroker1]⟩

def demoFields : AmqpFields := ⟨"host1", "cid1", "cname", "iid", "img", "cmd", "tag", 5⟩

def demoConn : AmqpConnection := ⟨0, [demoBroker0, demoBroker1], false, false, none, none⟩

def demoLogger : AmqpLogger := ⟨demoCtx, demoFields, some demoConn⟩

def demoLoggerNil : AmqpLogger := ⟨demoCtx, demoFields, none⟩

def envAllOk : Env :=
  ⟨0, true, fun _ _ => true, fun _ => true, fun _ => true, true, true, true, true, true⟩

def envPubFail : Env := { envAllOk with publishOk := false }

/-- A configuration with the client certificate/key options cleared:
"no client auth configured", per the spec. -/
def stripClientAuth (c : Ctx) : Ctx :=
  ⟨fun k => if k = "amqp-cert" then "" else if k = "amqp-key" then "" else c.config k⟩

def demoTLSConfig : String → String := fun k =>
  if k = "amqp-url" then "amqps://h0,amqps://h1"
  else if k = "amqp-cert" then "/bad/cert.pem"
  else if k = "amqp-key" then "/bad/key.pem"
  else ""

def demoCtxTLS : Ctx := ⟨demoTLSConfig⟩

def envNoCert : Env := { envAllOk with loadCert := fun _ _ => false }

def envC10 : Env := { envAllOk with publishOk := false, channelOk := false }

theorem connect_all_benign (env : Env) (ctx : Ctx) (b : Nat) (g : Globals) :
    ((connect env ctx b g).2.all evBenign) = true := by
  simp only [connect, connectTail]
  repeat' split
  all_goals simp [evBenign, Ev.isPublish, Ev.isReconnectStart]

theorem benign_counts (t : List Ev) (h : t.all evBenign = true) :
    pubCount t = 0 ∧ pubOkCount t = 0 ∧ recCount t = 0 := by
  refine ⟨?_, ?_, ?_⟩ <;>
  · simp only [pubCount, pubOkCount, recCount]
    apply List.countP_eq_zero.mpr
    intro a ha
    have hb := List.all_eq_true.mp h a ha
    simp [evBenign] at hb
    cases a <;> simp_all [Ev.isPublish, Ev.isPublishOk, Ev.isReconnectStart]

theorem reconnect_eq (env : Env) (g : Globals) (s : AmqpLogger) (conn : AmqpConnection)
    (h : s.connection = some conn) :
    reconnect env g s =
      match connect env s.ctx (nextBroker conn) g with
      | (.ok newConn, cops) =>
        (.ok (), { s with connection := some newConn },
          Ev.reconnectStart :: Ev.closeChan :: Ev.closeConn :: cops)
      | (.err e, cops) =>
        (.err e,
         { s with connection := some ({ conn with
             chanClosed := true, connClosed := true, broker := nextBroker conn }) },
          Ev.reconnectStart :: Ev.closeChan :: Ev.closeConn :: cops)
      | (.panic m, cops) =>
        (.panic m,
         { s with connection := some ({ conn with
             chanClosed := true, connClosed := true, broker := nextBroker conn }) },
          Ev.reconnectStart :: Ev.closeChan :: Ev.closeConn :: cops) := by
  simp only [reconnect, AmqpLogger.Close, h, nextBroker]
  split <;> simp_all

theorem Log_some (env : Env) (g : Globals) (s : AmqpLogger) (conn : AmqpConnection)
    (line : String) (h : s.connection = some conn) :
    AmqpLogger.Log env g s line = logPublish env g s (trimSpace line) [] := by
  simp only [AmqpLogger.Log, h]

theorem logPublish_eq (env : Env) (g : Globals) (s : AmqpLogger) (conn : AmqpConnection)
    (short : String) (ops : List Ev)
    (h : s.connection = some conn) (hne : short ≠ "") (hm : env.marshalOk = true) :
    logPublish env g s short ops =
      (fun deferred pubEv =>
        if (!conn.chanClosed && env.publishOk) = true then
          (GoResult.ok (), s, (ops ++ [pubEv]) ++ deferred)
        else
          match reconnect env g s with
          | (.ok _, s1, rops) => (.ok (), s1, (ops ++ [pubEv]) ++ (rops ++ deferred))
          | (.err e, s1, rops) => (.err e, s1, (ops ++ [pubEv]) ++ (rops ++ deferred))
          | (.panic m, s1, rops) => (.panic m, s1, (ops ++ [pubEv]) ++ (rops ++ deferred)))
      (if s.ctx.config "amqp-confirm" = "true" then [Ev.confirmWait conn.conf] else [])
      (Ev.publish (s.ctx.config "amqp-exchange") (s.ctx.config "amqp-routingkey")
        { Version := "1", Host := s.fields.Hostname, Message := short,
          Timestamp := env.now, Path := s.fields.ContainerID, Tags := s.fields }
        conn.chanClosed (!conn.chanClosed && env.publishOk)) := by
  simp only [logPublish, h, hne, hm]
  by_cases hp : (!conn.chanClosed && env.publishOk) = true <;> simp [hp]

theorem connect_ok_shape (env : Env) (ctx : Ctx) (b : Nat) (g : Globals)
    (conn2 : AmqpConnection) (ops : List Ev)
    (h : connect env ctx b g = (GoResult.ok conn2, ops)) :
    conn2 = { broker := b, brokerURLs := g.brokerURLs, connClosed := false,
              chanClosed := false, conf := none, err := none } := by
  simp only [connect, connectTail] at h
  repeat' split at h
  all_goals simp_all

/-- Claim C3, amended: for a line that is empty after trimming, when the
driver holds a connection, Log returns success immediately, leaves the state
unchanged and performs no operation at all; the unconditional form of the
claim fails because the nil-connection check precedes the empty-line check. -/
theorem C3_corrected (env : Env) (g : Globals) (s : AmqpLogger) (conn : AmqpConnection)
    (line : String) (hconn : s.connection = some conn) (he : trimSpace line = "") :
    AmqpLogger.Log env g s line = (GoResult.ok (), s, []) := by
  rw [Log_some env g s conn line hconn, he]
  simp [logPublish]

/-- Claim C3, counterexample to the claim as stated: with a nil connection
field, Log on a whitespace-only line does not return success with zero
network operations — it starts a reconnect cycle first, which nil-
dereferences the connection. -/
theorem C3_counterexample :
    (AmqpLogger.Log envAllOk demoGlobals demoLoggerNil "   ").1 =
      GoResult.panic "invalid memory address or nil pointer dereference" ∧
    recCount (AmqpLogger.Log envAllOk demoGlobals demoLoggerNil "   ").2.2 = 1 := by decide

/-- Claim C3, witness: the amended theorem applied at a concrete driver
holding a connection, on a whitespace-only line. -/
theorem C3_witness :
    AmqpLogger.Log envAllOk demoGlobals demoLogger " " = (GoResult.ok (), demoLogger, []) :=
  C3_corrected envAllOk demoGlobals demoLogger demoConn " " rfl (by decide)

/-- Claim C4: one reconnect step moves the broker cursor of the held
connection from i to (i+1) mod len and the cursor stays in [0, len);
with len = 1 this keeps the cursor at 0 (same endpoint retried). -/
theorem C4_roundRobin (env : Env) (g : Globals) (s : AmqpLogger) (conn : AmqpConnection)
    (hconn : s.connection = some conn)
    (hi : conn.broker < conn.brokerURLs.length)
    (hlen : g.brokerURLs.length = conn.brokerURLs.length) :
    ∃ conn2, (reconnect env g s).2.1.connection = some conn2 ∧
      conn2.broker = (conn.broker + 1) % conn.brokerURLs.length ∧
      conn2.broker < conn.brokerURLs.length := by
  have hnb : nextBroker conn = (conn.broker + 1) % conn.brokerURLs.length := by
    simp only [nextBroker]
    split
    · rw [Nat.mod_eq_of_lt]
      omega
    · have h1 : conn.broker + 1 = conn.brokerURLs.length := by omega
      rw [h1, Nat.mod_self]
  have hmod : (conn.broker + 1) % conn.brokerURLs.length < conn.brokerURLs.length :=
    Nat.mod_lt _ (by omega)
  rw [reconnect_eq env g s conn hconn]
  rcases hc : connect env s.ctx (nextBroker conn) g with ⟨res, cops⟩
  rcases res with newConn | e | m
  · have hshape := connect_ok_shape env s.ctx (nextBroker conn) g newConn cops hc
    refine ⟨newConn, by simp, ?_, ?_⟩ <;> rw [hshape] <;> simp [hnb, hmod]
  · exact ⟨⟨nextBroker conn, conn.brokerURLs, true, true, conn.conf, conn.err⟩,
      by simp, by simp [hnb], by simpa [hnb] using hmod⟩
  · exact ⟨⟨nextBroker conn, conn.brokerURLs, true, true, conn.conf, conn.err⟩,
      by simp, by simp [hnb], by simpa [hnb] using hmod⟩

/-- Claim C4, witness: the theorem applied at a concrete two-broker
driver with cursor 0. -/
theorem C4_witness :
    ∃ conn2, (reconnect envAllOk demoGlobals demoLogger).2.1.connection = some conn2 ∧
      conn2.broker = (demoConn.broker + 1) % demoConn.brokerURLs.length ∧
      conn2.broker < demoConn.brokerURLs.length :=
  C4_roundRobin envAllOk demoGlobals demoLogger demoConn rfl (by decide) (by decide)

/-- Claim C5, exhibiting the code bug: with two plain-scheme brokers
configured and the cursor at 1, connect dials the URL at index 0, never the
URL at the cursor, even though the returned connection records cursor 1. -/
theorem C5_bug :
    (connect envAllOk demoCtx 1 demoGlobals).2 =
      [Ev.dial ⟨"amqp", "h0"⟩, Ev.channelOpen, Ev.exchangeDeclare "logs",
       Ev.queueDeclare "q", Ev.queueBind "q" "rk" "logs"] ∧
    Ev.dial ⟨"amqp", "h1"⟩ ∉ (connect envAllOk demoCtx 1 demoGlobals).2 ∧
    (connect envAllOk demoCtx 1 demoGlobals).1 =
      GoResult.ok ⟨1, [demoBroker0, demoBroker1], false, false, none, none⟩ := by decide

/-- Claim C9: every connection built by connect carries a nil
confirmation channel — the channel is never put into publisher-confirmation
mode, so the confirmation wait in Log always operates on a nil channel. -/
theorem C9_confNil (env : Env) (ctx : Ctx) (b : Nat) (g : Globals)
    (conn2 : AmqpConnection) (ops : List Ev)
    (h : connect env ctx b g = (GoResult.ok conn2, ops)) : conn2.conf = none := by
  rw [connect_ok_shape env ctx b g conn2 ops h]

/-- Claim C9, witness: the theorem applied at a concrete successful
connect. -/
theorem C9_witness :
    (⟨0, [demoBroker0, demoBroker1], false, false, none, none⟩ : AmqpConnection).conf = none :=
  C9_confNil envAllOk demoCtx 0 demoGlobals _
    [Ev.dial ⟨"amqp", "h0"⟩, Ev.channelOpen, Ev.exchangeDeclare "logs",
     Ev.queueDeclare "q", Ev.queueBind "q" "rk" "logs"] (by decide)

theorem Log_pubFail (env : Env) (g : Globals) (s : AmqpLogger) (conn : AmqpConnection)
    (line : String) (hconn : s.connection = some conn) (hne : trimSpace line ≠ "")
    (hm : env.marshalOk = true) (hfail : (!conn.chanClosed && env.publishOk) = false) :
    pubCount (AmqpLogger.Log env g s line).2.2 = 1 ∧
    pubOkCount (AmqpLogger.Log env g s line).2.2 = 0 ∧
    recCount (AmqpLogger.Log env g s line).2.2 = 1 ∧
    (AmqpLogger.Log env g s line).1 =
      (match (connect env s.ctx (nextBroker conn) g).1 with
       | GoResult.ok _ => GoResult.ok ()
       | GoResult.err e => GoResult.err e
       | GoResult.panic m => GoResult.panic m) := by
  rw [Log_some env g s conn line hconn,
      logPublish_eq env g s conn (trimSpace line) [] hconn hne hm,
      reconnect_eq env g s conn hconn]
  simp only [hfail]
  rcases hc : connect env s.ctx (nextBroker conn) g with ⟨res, cops⟩
  have hben := connect_all_benign env s.ctx (nextBroker conn) g
  rw [hc] at hben
  obtain ⟨hp0, hpo0, hr0⟩ := benign_counts cops hben
  by_cases hcf : s.ctx.config "amqp-confirm" = "true" <;>
    rcases res with c2 | e | m <;>
      simp_all [pubCount, pubOkCount, recCount, Ev.isPublish, Ev.isPublishOk,
        Ev.isReconnectStart, List.countP_append, List.countP_cons]

theorem Log_pubOk (env : Env) (g : Globals) (s : AmqpLogger) (conn : AmqpConnection)
    (line : String) (hconn : s.connection = some conn) (hne : trimSpace line ≠ "")
    (hm : env.marshalOk = true) (hp : (!conn.chanClosed && env.publishOk) = true) :
    AmqpLogger.Log env g s line = (GoResult.ok (), s,
      Ev.publish (s.ctx.config "amqp-exchange") (s.ctx.config "amqp-routingkey")
        { Version := "1", Host := s.fields.Hostname, Message := trimSpace line,
          Timestamp := env.now, Path := s.fields.ContainerID, Tags := s.fields }
        conn.chanClosed true ::
      (if s.ctx.config "amqp-confirm" = "true" then [Ev.confirmWait conn.conf] else [])) := by
  rw [Log_some env g s conn line hconn,
      logPublish_eq env g s conn (trimSpace line) [] hconn hne hm]
  simp only [hp, if_pos]
  simp [hp]

/-- Claim C1, amended: on a Log call whose publish fails, the driver starts
exactly one reconnect cycle and makes exactly one publish attempt (it never
retries the publish); the call's result is the reconnect outcome — a connect
error is surfaced, while a successful reconnect yields a success return with
the message dropped. -/
theorem C1_corrected (env : Env) (g : Globals) (s : AmqpLogger) (conn : AmqpConnection)
    (line : String)
    (hconn : s.connection = some conn)
    (hne : trimSpace line ≠ "")
    (hm : env.marshalOk = true)
    (hfail : (!conn.chanClosed && env.publishOk) = false) :
    recCount (AmqpLogger.Log env g s line).2.2 = 1 ∧
    pubCount (AmqpLogger.Log env g s line).2.2 = 1 ∧
    (AmqpLogger.Log env g s line).1 =
      (match (connect env s.ctx (nextBroker conn) g).1 with
       | GoResult.ok _ => GoResult.ok ()
       | GoResult.err e => GoResult.err e
       | GoResult.panic m => GoResult.panic m) := by
  obtain ⟨h1, h2, h3, h4⟩ := Log_pubFail env g s conn line hconn hne hm hfail
  exact ⟨h3, h1, h4⟩

/-- Claim C1, counterexample to the claim as stated: with the publish
failing and the reconnect succeeding, the claim demands a retried publish
against the new connection (two attempts) with only a second failure
surfaced; the code makes exactly one publish attempt and returns success. -/
theorem C1_counterexample :
    (AmqpLogger.Log envPubFail demoGlobals demoLogger "hello").1 = GoResult.ok () ∧
    pubCount (AmqpLogger.Log envPubFail demoGlobals demoLogger "hello").2.2 = 1 := by decide

/-- Claim C1, witness: the amended theorem applied at a concrete driver
whose publish fails while all connect steps succeed. -/
theorem C1_witness :
    recCount (AmqpLogger.Log envPubFail demoGlobals demoLogger "hi").2.2 = 1 ∧
    pubCount (AmqpLogger.Log envPubFail demoGlobals demoLogger "hi").2.2 = 1 ∧
    (AmqpLogger.Log envPubFail demoGlobals demoLogger "hi").1 =
      (match (connect envPubFail demoLogger.ctx (nextBroker demoConn) demoGlobals).1 with
       | GoResult.ok _ => GoResult.ok ()
       | GoResult.err e => GoResult.err e
       | GoResult.panic m => GoResult.panic m) :=
  C1_corrected envPubFail demoGlobals demoLogger demoConn "hi" rfl (by decide) rfl rfl

/-- Claim C2, amended: for a non-empty trimmed line, a Log call that
returns success made exactly one publish attempt; either that attempt
succeeded (exactly one wire message), or it failed and a reconnect cycle
completed successfully, in which case success is returned although the line
was dropped. -/
theorem C2_corrected (env : Env) (g : Globals) (s : AmqpLogger) (conn : AmqpConnection)
    (line : String)
    (hconn : s.connection = some conn)
    (hne : trimSpace line ≠ "")
    (hok : (AmqpLogger.Log env g s line).1 = GoResult.ok ()) :
    pubCount (AmqpLogger.Log env g s line).2.2 = 1 ∧
    (pubOkCount (AmqpLogger.Log env g s line).2.2 = 1 ∨
      (pubOkCount (AmqpLogger.Log env g s line).2.2 = 0 ∧
       recCount (AmqpLogger.Log env g s line).2.2 = 1)) := by
  by_cases hm : env.marshalOk = true
  · by_cases hp : (!conn.chanClosed && env.publishOk) = true
    · rw [Log_pubOk env g s conn line hconn hne hm hp]
      by_cases hcf : s.ctx.config "amqp-confirm" = "true" <;>
        simp [hcf, pubCount, pubOkCount, Ev.isPublish, Ev.isPublishOk, List.countP_cons]
    · have hfail : (!conn.chanClosed && env.publishOk) = false := by
        revert hp; cases (!conn.chanClosed && env.publishOk) <;> simp
      obtain ⟨h1, h2, h3, _⟩ := Log_pubFail env g s conn line hconn hne hm hfail
      exact ⟨h1, Or.inr ⟨h2, h3⟩⟩
  · exfalso
    rw [Log_some env g s conn line hconn] at hok
    simp [logPublish, hne, hm] at hok

/-- Claim C2, counterexample to the claim as stated: Log returns success
for a non-empty line while no publish succeeded (the single attempt failed
and the reconnect succeeded) — a silent drop on a success return. -/
theorem C2_counterexample :
    (AmqpLogger.Log envPubFail demoGlobals demoLogger "world").1 = GoResult.ok () ∧
    pubOkCount (AmqpLogger.Log envPubFail demoGlobals demoLogger "world").2.2 = 0 := by decide

/-- Claim C2, witness: the amended theorem applied at a concrete driver
whose publish succeeds. -/
theorem C2_witness :
    pubCount (AmqpLogger.Log envAllOk demoGlobals demoLogger "ok").2.2 = 1 ∧
    (pubOkCount (AmqpLogger.Log envAllOk demoGlobals demoLogger "ok").2.2 = 1 ∨
      (pubOkCount (AmqpLogger.Log envAllOk demoGlobals demoLogger "ok").2.2 = 0 ∧
       recCount (AmqpLogger.Log envAllOk demoGlobals demoLogger "ok").2.2 = 1)) :=
  C2_corrected envAllOk demoGlobals demoLogger demoConn "ok" rfl (by decide) (by decide)

/-- Close always returns nil. -/
theorem Close_ok (s : AmqpLogger) : (s.Close).1 = GoResult.ok () := by
  simp only [AmqpLogger.Close]
  rcases s.connection with _ | c <;> simp

/-- Claim C6, amended: with the confirmation flag enabled, the
confirmation wait is a deferred call whose outcome is discarded after the
result is fixed: a Log call whose publish succeeds returns success — never
a delivery error — and the trailing wait operates on the connection's stored
confirmation channel. -/
theorem C6_corrected (env : Env) (g : Globals) (s : AmqpLogger) (conn : AmqpConnection)
    (line : String)
    (hconn : s.connection = some conn)
    (hne : trimSpace line ≠ "")
    (hm : env.marshalOk = true)
    (hopen : conn.chanClosed = false)
    (hpub : env.publishOk = true)
    (hcf : s.ctx.config "amqp-confirm" = "true") :
    (AmqpLogger.Log env g s line).1 = GoResult.ok () ∧
    (AmqpLogger.Log env g s line).2.2.getLast? = some (Ev.confirmWait conn.conf) := by
  rw [Log_pubOk env g s conn line hconn hne hm (by simp [hopen, hpub])]
  simp [hcf]

/-- Claim C6, counterexample to the claim as stated: confirmation flag
enabled, no confirmation can ever arrive (the stored channel is nil), yet
Log returns success rather than a delivery error; the deferred wait runs on
the nil channel. -/
theorem C6_counterexample :
    demoLogger.ctx.config "amqp-confirm" = "true" ∧
    (AmqpLogger.Log envAllOk demoGlobals demoLogger "ping").1 = GoResult.ok () ∧
    (AmqpLogger.Log envAllOk demoGlobals demoLogger "ping").2.2.getLast? =
      some (Ev.confirmWait none) := by decide

/-- Claim C6, witness: the amended theorem applied at a concrete driver
with the confirmation option set to "true". -/
theorem C6_witness :
    (AmqpLogger.Log envAllOk demoGlobals demoLogger "pong").1 = GoResult.ok () ∧
    (AmqpLogger.Log envAllOk demoGlobals demoLogger "pong").2.2.getLast? =
      some (Ev.confirmWait demoConn.conf) :=
  C6_corrected envAllOk demoGlobals demoLogger demoConn "pong" rfl (by decide) rfl rfl rfl rfl

/-- Claim C7, amended: Close returns no error and calling it twice does
not fault, but Close does not mark the driver closed: a subsequent Log call
with a non-empty line makes one publish attempt on the closed channel, the
attempt fails, and one reconnect cycle runs — there is no driver-closed
error. -/
theorem C7_corrected (env : Env) (g : Globals) (s : AmqpLogger) (conn : AmqpConnection)
    (line : String)
    (hconn : s.connection = some conn)
    (hne : trimSpace line ≠ "")
    (hm : env.marshalOk = true) :
    (s.Close).1 = GoResult.ok () ∧
    (((s.Close).2.1).Close).1 = GoResult.ok () ∧
    pubCount (AmqpLogger.Log env g (s.Close).2.1 line).2.2 = 1 ∧
    pubOkCount (AmqpLogger.Log env g (s.Close).2.1 line).2.2 = 0 ∧
    recCount (AmqpLogger.Log env g (s.Close).2.1 line).2.2 = 1 := by
  have hconn1 : ((s.Close).2.1).connection =
      some ({ conn with chanClosed := true, connClosed := true }) := by
    simp [AmqpLogger.Close, hconn]
  obtain ⟨h1, h2, h3, _⟩ :=
    Log_pubFail env g (s.Close).2.1 ({ conn with chanClosed := true, connClosed := true })
      line hconn1 hne hm (by simp)
  exact ⟨Close_ok s, Close_ok _, h1, h2, h3⟩

/-- Claim C7, counterexample to the claim as stated: after Close, a Log
call does not fail with a driver-closed error — it attempts a publish and a
reconnect and even returns success when the reconnect succeeds. -/
theorem C7_counterexample :
    ((demoLogger.Close).2.1.Close).1 = GoResult.ok () ∧
    (AmqpLogger.Log envAllOk demoGlobals (demoLogger.Close).2.1 "after").1 = GoResult.ok () ∧
    pubCount (AmqpLogger.Log envAllOk demoGlobals (demoLogger.Close).2.1 "after").2.2 = 1 ∧
    recCount (AmqpLogger.Log envAllOk demoGlobals (demoLogger.Close).2.1 "after").2.2 = 1 := by
  decide

/-- Claim C7, witness: the amended theorem applied at a concrete closed
driver. -/
theorem C7_witness :
    (demoLogger.Close).1 = GoResult.ok () ∧
    (((demoLogger.Close).2.1).Close).1 = GoResult.ok () ∧
    pubCount (AmqpLogger.Log envAllOk demoGlobals (demoLogger.Close).2.1 "x").2.2 = 1 ∧
    pubOkCount (AmqpLogger.Log envAllOk demoGlobals (demoLogger.Close).2.1 "x").2.2 = 0 ∧
    recCount (AmqpLogger.Log envAllOk demoGlobals (demoLogger.Close).2.1 "x").2.2 = 1 :=
  C7_corrected envAllOk demoGlobals demoLogger demoConn "x" rfl (by decide) rfl

theorem connectTail_extends (env : Env) (g : Globals) (b : Nat) (ops : List Ev) :
    ∃ t, (connectTail env g b ops).2 = ops ++ t := by
  simp only [connectTail]
  repeat' split
  all_goals simp only [List.append_assoc]
  all_goals exact ⟨_, rfl⟩

/-- Claim C8: with a secure-scheme broker list, when loading the client
certificate/key pair fails, connect still dials the cursor's URL over TLS
with no client certificate attached, and the whole call is identical to a
call with no client auth configured. -/
theorem C8_certFallback (env : Env) (ctx : Ctx) (broker : Nat) (g : Globals) (u0 ub : URL)
    (h0 : (parseURL (ctx.config "amqp-url")).get? 0 = some u0)
    (hs : u0.scheme = "amqps")
    (hb : (parseURL (ctx.config "amqp-url")).get? broker = some ub)
    (hload : env.loadCert (ctx.config "amqp-cert") (ctx.config "amqp-key") = false)
    (hempty : env.loadCert "" "" = false) :
    Ev.dialTLS ub false ∈ (connect env ctx broker g).2 ∧
    connect env ctx broker g = connect env (stripClientAuth ctx) broker g := by
  have hurl : (stripClientAuth ctx).config "amqp-url" = ctx.config "amqp-url" := by
    simp only [stripClientAuth]
    rw [if_neg (by decide), if_neg (by decide)]
  have hcert : (stripClientAuth ctx).config "amqp-cert" = "" := by
    simp only [stripClientAuth]
    simp
  have hkey : (stripClientAuth ctx).config "amqp-key" = "" := by
    simp only [stripClientAuth]
    rw [if_neg (by decide)]
    simp
  constructor
  · simp only [connect, h0, hs, hb, hload]
    by_cases hd : env.dialTLSOk ub
    · obtain ⟨t, ht⟩ := connectTail_extends env g broker [Ev.dialTLS ub false]
      simp [hd, ht]
    · simp [hd]
  · simp only [connect, hurl, hcert, hkey, h0, hs, hb, hload, hempty]

/-- Claim C8, witness: the theorem applied at a concrete TLS
configuration whose certificate pair fails to load. -/
theorem C8_witness :
    Ev.dialTLS ⟨"amqps", "h1"⟩ false ∈ (connect envNoCert demoCtxTLS 1 demoGlobals).2 ∧
    connect envNoCert demoCtxTLS 1 demoGlobals =
      connect envNoCert (stripClientAuth demoCtxTLS) 1 demoGlobals :=
  C8_certFallback envNoCert demoCtxTLS 1 demoGlobals ⟨"amqps", "h0"⟩ ⟨"amqps", "h1"⟩
    (by decide) rfl (by decide) rfl rfl

theorem Log_closedChan_head (env : Env) (g : Globals) (s1 : AmqpLogger)
    (conn1 : AmqpConnection) (line : String)
    (hconn1 : s1.connection = some conn1)
    (hne : trimSpace line ≠ "")
    (hm : env.marshalOk = true)
    (hcl : conn1.chanClosed = true) :
    (AmqpLogger.Log env g s1 line).2.2.head? =
      some (Ev.publish (s1.ctx.config "amqp-exchange") (s1.ctx.config "amqp-routingkey")
        { Version := "1", Host := s1.fields.Hostname, Message := trimSpace line,
          Timestamp := env.now, Path := s1.fields.ContainerID, Tags := s1.fields }
        true false) := by
  rw [Log_some env g s1 conn1 line hconn1,
      logPublish_eq env g s1 conn1 (trimSpace line) [] hconn1 hne hm]
  simp only [hcl, Bool.not_true, Bool.false_and]
  rcases hr : reconnect env g s1 with ⟨res2, s2, rops2⟩
  rcases res2 <;> simp

/-- Claim C10: after a publish failure whose reconnect also fails, the
driver still holds the old connection record with both handles closed and
only the broker cursor advanced, and the next Log call's first operation is
a publish attempt directly on that closed channel (no reconnect-if-nil
step). -/
theorem C10_staleConn (env : Env) (g : Globals) (s : AmqpLogger) (conn : AmqpConnection)
    (line : String) (e : String)
    (hconn : s.connection = some conn)
    (hne : trimSpace line ≠ "")
    (hm : env.marshalOk = true)
    (hopen : conn.chanClosed = false)
    (hpub : env.publishOk = false)
    (hcfail : (connect env s.ctx (nextBroker conn) g).1 = GoResult.err e) :
    (AmqpLogger.Log env g s line).1 = GoResult.err e ∧
    (AmqpLogger.Log env g s line).2.1.connection =
      some (⟨nextBroker conn, conn.brokerURLs, true, true, conn.conf, conn.err⟩ : AmqpConnection) ∧
    (AmqpLogger.Log env g (AmqpLogger.Log env g s line).2.1 line).2.2.head? =
      some (Ev.publish (s.ctx.config "amqp-exchange") (s.ctx.config "amqp-routingkey")
        { Version := "1", Host := s.fields.Hostname, Message := trimSpace line,
          Timestamp := env.now, Path := s.fields.ContainerID, Tags := s.fields }
        true false) := by
  rw [Log_some env g s conn line hconn,
      logPublish_eq env g s conn (trimSpace line) [] hconn hne hm,
      reconnect_eq env g s conn hconn]
  rcases hc : connect env s.ctx (nextBroker conn) g with ⟨res, cops⟩
  rw [hc] at hcfail
  simp only at hcfail
  subst hcfail
  simp only [hopen, hpub, Bool.not_false, Bool.and_false]
  refine ⟨by simp, by simp, ?_⟩
  have h3 := Log_closedChan_head env g
    ({ s with connection := some (⟨nextBroker conn, conn.brokerURLs, true, true, conn.conf, conn.err⟩ : AmqpConnection) })
    (⟨nextBroker conn, conn.brokerURLs, true, true, conn.conf, conn.err⟩ : AmqpConnection)
    line (by simp) hne hm rfl
  simpa using h3

/-- Claim C10, witness: the theorem applied at a concrete driver whose
publish fails and whose reconnect fails at channel opening. -/
theorem C10_witness :
    (AmqpLogger.Log envC10 demoGlobals demoLogger "boom").1 =
      GoResult.err "Could not open channel" ∧
    (AmqpLogger.Log envC10 demoGlobals demoLogger "boom").2.1.connection =
      some (⟨nextBroker demoConn, demoConn.brokerURLs, true, true,
        demoConn.conf, demoConn.err⟩ : AmqpConnection) ∧
    (AmqpLogger.Log envC10 demoGlobals
        (AmqpLogger.Log envC10 demoGlobals demoLogger "boom").2.1 "boom").2.2.head? =
      some (Ev.publish (demoLogger.ctx.config "amqp-exchange")
        (demoLogger.ctx.config "amqp-routingkey")
        { Version := "1", Host := demoLogger.fields.Hostname, Message := trimSpace "boom",
          Timestamp := envC10.now, Path := demoLogger.fields.ContainerID,
          Tags := demoLogger.fields }
        true false) :=
  C10_staleConn envC10 demoGlobals demoLogger demoConn "boom" "Could not open channel"
    rfl (by decide) rfl rfl rfl (by decide)
